import Mathlib

/-!
Formal model of the scaletempo2 WSOLA time-scale-modification engine from
the repository v0l/rvp (directory src/scaletempo2/c).

Embedding conventions:
* C float / double scalars are modelled as rationals; the constants that
  appear in the code (0.25f, 4.0f, 20.0f, 30.0f) are exactly representable,
  so no rounding is lost.
* C int fields are modelled as integers.
* The engine struct mirrors struct mp_scaletempo2 from scaletempo2_internal.h
  at the level of counts, indices and flags.  The planar float arrays
  (wsola_output, target_block, search_block, optimal_block, input_buffer and
  the window tables) hold sample data whose synthesis kernel lives in
  scaletempo2_internal.c, a file that is not part of the extract; those
  arrays are therefore tracked through their frame counts
  (input_buffer_frames, num_complete_frames, ...), which is what the
  verified properties concern.  Output sample values are modelled on the
  muted path (where the specification pins them to exact zeros).
* Heap allocation success is an explicit parameter of the constructor, and a
  NULL result is modelled by Option.
-/

/-- MP_NUM_CHANNELS from scaletempo2_internal.h. -/
def MP_NUM_CHANNELS : ℤ := 8

/-- struct mp_scaletempo2_opts from scaletempo2.h: the four configuration
scalars of the engine. -/
structure mp_scaletempo2_opts where
  min_playback_rate : ℚ
  max_playback_rate : ℚ
  ola_window_size_ms : ℚ
  wsola_search_interval_ms : ℚ
deriving DecidableEq

/-- mp_scaletempo2_get_default_opts from scaletempo2_wrapper.c: the default
configuration (0.25, 4.0, 20.0, 30.0). -/
def mp_scaletempo2_get_default_opts : mp_scaletempo2_opts :=
  { min_playback_rate := 1 / 4
    max_playback_rate := 4
    ola_window_size_ms := 20
    wsola_search_interval_ms := 30 }

/-- struct mp_scaletempo2 from scaletempo2_internal.h, at the level of
counts, indices and flags (see the embedding conventions above).  The field
named final_requested is the end-of-stream flag: the C extract represents
finality through input_buffer_final_frames, whose management lives in the
missing core; the specification describes set_final as setting a flag, which
is modelled directly. -/
structure mp_scaletempo2 where
  opts : mp_scaletempo2_opts
  channels : ℤ
  samples_per_second : ℤ
  muted_partial_frame : ℚ
  output_time : ℚ
  search_block_center_offset : ℤ
  search_block_index : ℤ
  num_candidate_blocks : ℤ
  target_block_index : ℤ
  ola_window_size : ℤ
  ola_hop_size : ℤ
  num_complete_frames : ℤ
  wsola_output_started : Bool
  wsola_output_size : ℤ
  search_block_size : ℤ
  input_buffer_frames : ℤ
  input_buffer_final_frames : ℤ
  input_buffer_added_silence : ℤ
  final_requested : Bool
deriving DecidableEq

/-- The all-zero engine state produced by calloc in mp_scaletempo2_create. -/
def zeroed_scaletempo2 : mp_scaletempo2 :=
  { opts := { min_playback_rate := 0, max_playback_rate := 0
              ola_window_size_ms := 0, wsola_search_interval_ms := 0 }
    channels := 0
    samples_per_second := 0
    muted_partial_frame := 0
    output_time := 0
    search_block_center_offset := 0
    search_block_index := 0
    num_candidate_blocks := 0
    target_block_index := 0
    ola_window_size := 0
    ola_hop_size := 0
    num_complete_frames := 0
    wsola_output_started := false
    wsola_output_size := 0
    search_block_size := 0
    input_buffer_frames := 0
    input_buffer_final_frames := 0
    input_buffer_added_silence := 0
    final_requested := false }

/-- Modelled from the spec: the derivation of ola_window_size in
mp_scaletempo2_init (scaletempo2_internal.c is not part of the extract).
Section 6 of the specification: the window length in frames is
ola_window_size_ms times the sample rate over 1000, rounded to an even
integer of at least 2. -/
def round_even_at_least_two (x : ℚ) : ℤ :=
  if max 2 (round x) % 2 = 0 then max 2 (round x) else max 2 (round x) + 1

/-- Modelled from the spec: the derivation of num_candidate_blocks in
mp_scaletempo2_init (scaletempo2_internal.c is not part of the extract).
Section 6 of the specification: the candidate count is
wsola_search_interval_ms times the sample rate over 1000, rounded to an odd
integer of at least 1. -/
def round_odd_at_least_one (x : ℚ) : ℤ :=
  if max 1 (round x) % 2 = 1 then max 1 (round x) else max 1 (round x) + 1

/-- Modelled from the spec: mp_scaletempo2_init, declared in
scaletempo2_internal.h but implemented in the missing core.  It stores the
channel count and sample rate, derives the window geometry from the options
(sections 3 and 6 of the specification: ola_hop_size is half the even
window size, search_block_size is num_candidate_blocks + ola_window_size - 1,
search_block_center_offset is (N-1)/2 + (W-1)/2), and clears all dynamic
state, leaving the engine in the as-constructed configuration that
mp_scaletempo2_reset restores. -/
def mp_scaletempo2_init (p : mp_scaletempo2) (channels rate : ℤ) : mp_scaletempo2 :=
  let w := round_even_at_least_two (p.opts.ola_window_size_ms * (rate : ℚ) / 1000)
  let n := round_odd_at_least_one (p.opts.wsola_search_interval_ms * (rate : ℚ) / 1000)
  { p with
    channels := channels
    samples_per_second := rate
    ola_window_size := w
    ola_hop_size := w / 2
    num_candidate_blocks := n
    search_block_size := n + w - 1
    search_block_center_offset := (n - 1) / 2 + (w - 1) / 2
    wsola_output_size := w + w / 2
    muted_partial_frame := 0
    output_time := 0
    search_block_index := 0
    target_block_index := 0
    num_complete_frames := 0
    wsola_output_started := false
    input_buffer_frames := 0
    input_buffer_final_frames := 0
    input_buffer_added_silence := 0
    final_requested := false }

/-- Outcome of the two heap allocations performed by mp_scaletempo2_create
(the calloc of the engine struct and the malloc of the stored options; the
malloc occurs in both branches of the opts test). -/
structure alloc_outcome where
  calloc_ok : Bool
  opts_malloc_ok : Bool
deriving DecidableEq

/-- mp_scaletempo2_create from scaletempo2_wrapper.c.  Rejects channel
counts outside [1, MP_NUM_CHANNELS] and non-positive sample rates, returns
none (NULL) when either allocation fails, copies the caller-supplied options
by value (or the defaults when the caller passes NULL), and initializes the
engine.  A none result carries no engine state, matching the wrapper, which
frees everything it allocated before returning NULL. -/
def mp_scaletempo2_create (alloc : alloc_outcome) (opts : Option mp_scaletempo2_opts)
    (channels sample_rate : ℤ) : Option mp_scaletempo2 :=
  if channels ≤ 0 ∨ MP_NUM_CHANNELS < channels ∨ sample_rate ≤ 0 then
    none
  else if alloc.calloc_ok = false then
    none
  else if alloc.opts_malloc_ok = false then
    none
  else
    let stored :=
      match opts with
      | some o => o
      | none => mp_scaletempo2_get_default_opts
    some (mp_scaletempo2_init { zeroed_scaletempo2 with opts := stored } channels sample_rate)

/-- mp_scaletempo2_destroy from scaletempo2_wrapper.c, modelled by its
observable deallocation count.  A NULL argument returns before any free.
For a non-null engine the wrapper frees the five planar buffer arrays
(wsola_output, optimal_block, search_block, target_block, input_buffer: one
free per channel plus the pointer array each, all non-null in a created
engine), the four flat allocations (ola_window, transition_window,
energy_candidate_blocks, opts), and the struct itself. -/
def mp_scaletempo2_destroy : Option mp_scaletempo2 → ℕ
  | none => 0
  | some p => 5 * (p.channels.toNat + 1) + 4 + 1

/-- Modelled from the spec: mp_scaletempo2_set_final, implemented in the
missing core.  Section 4.5 of the specification: set_final sets a flag; the
next WSOLA iteration that would block on input instead pads with silence. -/
def mp_scaletempo2_set_final (p : mp_scaletempo2) : mp_scaletempo2 :=
  { p with final_requested := true }

/-- Modelled from the spec: mp_scaletempo2_reset, implemented in the missing
core.  Section 4.5 of the specification: reset clears the buffered frame
counts, the completed-output count, the fractional clock and all indices,
restoring the as-constructed state (the derived window geometry and the
configuration are retained). -/
def mp_scaletempo2_reset (p : mp_scaletempo2) : mp_scaletempo2 :=
  { p with
    muted_partial_frame := 0
    output_time := 0
    search_block_index := 0
    target_block_index := 0
    num_complete_frames := 0
    wsola_output_started := false
    input_buffer_frames := 0
    input_buffer_final_frames := 0
    input_buffer_added_silence := 0
    final_requested := false }

/-- Modelled from the spec: mp_scaletempo2_fill_input_buffer (push),
implemented in the missing core.  Section 4.5 of the specification: push
appends the supplied frames to the input buffer and returns how many it
took; after set_final it refuses and returns 0, otherwise it copies all of
them.  The sample data in planes is carried by the caller; the engine model
tracks the resulting frame count. -/
def mp_scaletempo2_fill_input_buffer (p : mp_scaletempo2) (planes : List (List ℚ))
    (frame_size : ℤ) (playback_rate : ℚ) : mp_scaletempo2 × ℤ :=
  if p.final_requested then
    (p, 0)
  else
    ({ p with input_buffer_frames := p.input_buffer_frames + frame_size }, frame_size)

/-- Modelled from the spec: the target block index derived from the
fractional clock (section 4.5 step 1): round(output_time) minus half the
window, so the target block is centered on output_time. -/
def derived_target_block_index (p : mp_scaletempo2) : ℤ :=
  round p.output_time - p.ola_window_size / 2

/-- Modelled from the spec: the search block index derived from the target
block index (section 4.5 step 2): the search block is centered on
output_time, so its start precedes the target block start by (N-1)/2. -/
def derived_search_block_index (p : mp_scaletempo2) : ℤ :=
  derived_target_block_index p - (p.num_candidate_blocks - 1) / 2

/-- Modelled from the spec: how many further input frames the next WSOLA
iteration requires (section 4.5 step 3): the input buffer must hold every
frame of the target block and of the search block. -/
def frames_needed (p : mp_scaletempo2) : ℤ :=
  max 0 (max (derived_target_block_index p + p.ola_window_size - p.input_buffer_frames)
             (derived_search_block_index p + p.search_block_size - p.input_buffer_frames))

/-- Frames of real (caller-supplied) audio currently buffered, as opposed
to silence appended for the final flush. -/
def real_input_frames (p : mp_scaletempo2) : ℤ :=
  p.input_buffer_frames - p.input_buffer_added_silence

/-- Modelled from the spec: whether a WSOLA iteration can run now: either
the input buffer already holds every needed frame, or the stream is final
and real frames remain undrained (the clock has not yet passed the end of
the real input), in which case the iteration pads with silence. -/
def wsola_can_iterate (p : mp_scaletempo2) (playback_rate : ℚ) : Bool :=
  decide (frames_needed p ≤ 0) ||
    (p.final_requested && decide (p.output_time < (real_input_frames p : ℚ)))

/-- Modelled from the spec: steps 1 through 8 of one WSOLA iteration
(section 4.5), at the level of counts, indices and the clock: derive the
block indices from the fractional clock, pad the input with silence when the
stream is final and frames are missing, account the ola_hop_size freshly
completed overlap-add output frames, and advance the clock by
ola_hop_size times the rate.  The sample-level work of steps 4 to 7
(block extraction, similarity search, transition blend, windowed
overlap-add) lives in the missing core and does not affect these counts. -/
def wsola_iteration_core (p : mp_scaletempo2) (playback_rate : ℚ) : mp_scaletempo2 :=
  let tbi := derived_target_block_index p
  let sbi := derived_search_block_index p
  let pad := if p.final_requested then frames_needed p else 0
  { p with
    target_block_index := tbi
    search_block_index := sbi
    input_buffer_frames := p.input_buffer_frames + pad
    input_buffer_added_silence := p.input_buffer_added_silence + pad
    num_complete_frames := p.num_complete_frames + p.ola_hop_size
    wsola_output_started := true
    output_time := p.output_time + (p.ola_hop_size : ℚ) * playback_rate }

/-- Modelled from the spec: step 9 of one WSOLA iteration (section 4.5):
evict the frames preceding both blocks from the input buffer and decrement
every input-buffer index, the clock included, by the eviction count. -/
def evict_input (p : mp_scaletempo2) : mp_scaletempo2 :=
  let evict := max 0 (min p.search_block_index p.target_block_index)
  { p with
    input_buffer_frames := p.input_buffer_frames - evict
    output_time := p.output_time - (evict : ℚ)
    search_block_index := p.search_block_index - evict
    target_block_index := p.target_block_index - evict }

/-- Modelled from the spec: one full WSOLA iteration (section 4.5):
the clock-and-count core followed by input eviction. -/
def run_one_wsola_iteration (p : mp_scaletempo2) (playback_rate : ℚ) : mp_scaletempo2 :=
  evict_input (wsola_iteration_core p playback_rate)

/-- Modelled from the spec: the WSOLA branch of pull (section 4.5): while
the destination has room, drain completed frames from the accumulator; when
none remain, attempt one more WSOLA iteration; stop when an iteration cannot
run.  The first argument is recursion fuel; twice the room plus two always
suffices, because every two steps either drain at least one frame or
terminate. -/
def wsola_pull : ℕ → mp_scaletempo2 → ℕ → ℚ → mp_scaletempo2 × ℕ
  | 0, p, _, _ => (p, 0)
  | fuel + 1, p, room, playback_rate =>
    if room = 0 then
      (p, 0)
    else if 0 < p.num_complete_frames then
      let take : ℕ := min room p.num_complete_frames.toNat
      let rest := wsola_pull fuel
        { p with num_complete_frames := p.num_complete_frames - (take : ℤ) }
        (room - take) playback_rate
      (rest.1, take + rest.2)
    else if wsola_can_iterate p playback_rate then
      wsola_pull fuel (run_one_wsola_iteration p playback_rate) room playback_rate
    else
      (p, 0)

/-- Modelled from the spec: the frame count emitted by the muted regime of
pull (section 4.5 of the specification: a rate outside
[min_playback_rate, max_playback_rate] is the muted passthrough, which
emits exact zeros while consuming input at the requested rate through
muted_partial_frame; a rate within one millionth of 1 is the verbatim
passthrough; any other rate drains the WSOLA accumulator).  The muted
emission fills the destination, capped by the input frames still
consumable at this rate. -/
def muted_frames_to_emit (p : mp_scaletempo2) (dest_size : ℤ) (playback_rate : ℚ) : ℤ :=
  max 0 (min dest_size
    ⌊((p.input_buffer_frames : ℚ) - p.muted_partial_frame) / playback_rate⌋)

/-- Modelled from the spec: total input-frame debt after a muted emission,
the carried fraction plus the frames just emitted times the rate
(section 4.5 of the specification). -/
def muted_advanced (p : mp_scaletempo2) (dest_size : ℤ) (playback_rate : ℚ) : ℚ :=
  p.muted_partial_frame + (muted_frames_to_emit p dest_size playback_rate : ℚ) * playback_rate

/-- Modelled from the spec: mp_scaletempo2_fill_buffer (pull), implemented
in the missing core; see the comment on muted_frames_to_emit for the three
rate regimes of section 4.5.  The result is the new engine state, the
emitted planar samples, and the emitted frame count.  Sample values are
modelled on the muted path, where the specification pins them to exact
zeros; on the other two paths the emitted values come from buffers whose
contents live in the missing core, so the sample list is left empty there
and only the count is tracked. -/
def mp_scaletempo2_fill_buffer (p : mp_scaletempo2) (dest_size : ℤ)
    (playback_rate : ℚ) : mp_scaletempo2 × List (List ℚ) × ℤ :=
  if playback_rate < p.opts.min_playback_rate ∨
      p.opts.max_playback_rate < playback_rate then
    ({ p with
        muted_partial_frame := muted_advanced p dest_size playback_rate
          - (⌊muted_advanced p dest_size playback_rate⌋ : ℚ)
        input_buffer_frames := p.input_buffer_frames
          - ⌊muted_advanced p dest_size playback_rate⌋ },
      List.replicate p.channels.toNat
        (List.replicate (muted_frames_to_emit p dest_size playback_rate).toNat (0 : ℚ)),
      muted_frames_to_emit p dest_size playback_rate)
  else if |playback_rate - 1| ≤ 1 / 1000000 then
    let n : ℤ := max 0 (min dest_size p.input_buffer_frames)
    ({ p with input_buffer_frames := p.input_buffer_frames - n }, [], n)
  else
    let r := wsola_pull (2 * dest_size.toNat + 2) p dest_size.toNat playback_rate
    (r.1, [], (r.2 : ℤ))

/-- Modelled from the spec: mp_scaletempo2_frames_available, implemented in
the missing core.  True when completed output frames are buffered, or the
input buffer holds enough frames for one more WSOLA iteration, or the
stream is final and real frames remain undrained. -/
def mp_scaletempo2_frames_available (p : mp_scaletempo2) (playback_rate : ℚ) : Bool :=
  decide (0 < p.num_complete_frames) || wsola_can_iterate p playback_rate

/-- Modelled from the spec: mp_scaletempo2_get_latency, implemented in the
missing core: the input frames the engine holds that have not yet
contributed to emitted output, expressed on the input timeline (buffered
input past the clock, plus the completed-but-undrained output frames
converted to input frames by the rate). -/
def mp_scaletempo2_get_latency (p : mp_scaletempo2) (playback_rate : ℚ) : ℚ :=
  (p.input_buffer_frames : ℚ) - p.output_time +
    (p.num_complete_frames : ℚ) * playback_rate

/-- Modelled from the spec: the drain loop after set_final (sections 4.5
and 8): keep running WSOLA iterations, padding with silence as needed,
while real frames remain undrained, that is while the clock has not yet
reached the end of the real input.  Returns the final state and the number
of iterations performed; the first argument is recursion fuel.  Note that
this cuts the drain off as soon as output_time reaches the end of the real
input, whereas pull (wsola_pull) can perform further iterations past that
point, because the silence appended for the final flush can keep
frames_needed at zero; the pull-based counterexample below exhibits the
difference. -/
def drain_engine : ℕ → mp_scaletempo2 → ℚ → mp_scaletempo2 × ℕ
  | 0, p, _ => (p, 0)
  | fuel + 1, p, playback_rate =>
    if p.output_time < (real_input_frames p : ℚ) then
      let rest := drain_engine fuel (run_one_wsola_iteration p playback_rate) playback_rate
      (rest.1, rest.2 + 1)
    else
      (p, 0)

/-- Concrete engine used by the C2 counterexample: default options, 2
channels, sample rate 100 (so ola_window_size 2 and ola_hop_size 1), one
pushed input frame, then set_final; the drain rate 13/50 = 0.26 lies inside
[0.25, 4]. -/
def conservation_counterexample_engine : mp_scaletempo2 :=
  mp_scaletempo2_set_final
    (mp_scaletempo2_fill_input_buffer
      (mp_scaletempo2_init
        { zeroed_scaletempo2 with opts := mp_scaletempo2_get_default_opts } 2 100)
      [] 1 (13 / 50)).1

/-- The state conservation_counterexample_engine evaluates to, written as an
explicit literal so that the pull loop can be traced step by step. -/
def cexBase : mp_scaletempo2 :=
  { opts := mp_scaletempo2_get_default_opts
    channels := 2
    samples_per_second := 100
    muted_partial_frame := 0
    output_time := 0
    search_block_center_offset := 1
    search_block_index := 0
    num_candidate_blocks := 3
    target_block_index := 0
    ola_window_size := 2
    ola_hop_size := 1
    num_complete_frames := 0
    wsola_output_started := false
    wsola_output_size := 3
    search_block_size := 4
    input_buffer_frames := 1
    input_buffer_final_frames := 0
    input_buffer_added_silence := 0
    final_requested := true }

/-- Equality of the identity fields that section 3 of the specification
declares immutable after construction: the channel count, the sample rate
and the stored configuration scalars. -/
def same_identity_fields (a b : mp_scaletempo2) : Prop :=
  a.channels = b.channels ∧ a.samples_per_second = b.samples_per_second ∧ a.opts = b.opts

/-- Equality of the derived window-geometry fields of section 3 of the
specification: the window size, the hop size, the candidate count and the
search block size. -/
def same_derived_sizes (a b : mp_scaletempo2) : Prop :=
  a.ola_window_size = b.ola_window_size ∧ a.ola_hop_size = b.ola_hop_size ∧
  a.num_candidate_blocks = b.num_candidate_blocks ∧ a.search_block_size = b.search_block_size

lemma round_even_at_least_two_spec (x : ℚ) :
    2 ≤ round_even_at_least_two x ∧ round_even_at_least_two x % 2 = 0 := by
  have h2 : (2 : ℤ) ≤ max 2 (round x) := le_max_left _ _
  unfold round_even_at_least_two
  split <;> omega

lemma round_odd_at_least_one_spec (x : ℚ) :
    1 ≤ round_odd_at_least_one x ∧ round_odd_at_least_one x % 2 = 1 := by
  have h1 : (1 : ℤ) ≤ max 1 (round x) := le_max_left _ _
  unfold round_odd_at_least_one
  split <;> omega

lemma run_one_wsola_iteration_static (p : mp_scaletempo2) (rate : ℚ) :
    same_identity_fields (run_one_wsola_iteration p rate) p ∧
    same_derived_sizes (run_one_wsola_iteration p rate) p :=
  ⟨⟨rfl, rfl, rfl⟩, rfl, rfl, rfl, rfl⟩

lemma wsola_pull_static : ∀ (fuel : ℕ) (p : mp_scaletempo2) (room : ℕ) (rate : ℚ),
    same_identity_fields (wsola_pull fuel p room rate).1 p ∧
    same_derived_sizes (wsola_pull fuel p room rate).1 p := by
  intro fuel
  induction fuel with
  | zero => exact fun p room rate => ⟨⟨rfl, rfl, rfl⟩, rfl, rfl, rfl, rfl⟩
  | succ n ih =>
    intro p room rate
    simp only [wsola_pull]
    split
    · exact ⟨⟨rfl, rfl, rfl⟩, rfl, rfl, rfl, rfl⟩
    · split
      · exact ih
          { p with num_complete_frames :=
              p.num_complete_frames - ((min room p.num_complete_frames.toNat : ℕ) : ℤ) }
          (room - min room p.num_complete_frames.toNat) rate
      · split
        · obtain ⟨⟨a1, a2, a3⟩, b1, b2, b3, b4⟩ := ih (run_one_wsola_iteration p rate) room rate
          exact ⟨⟨a1, a2, a3⟩, b1, b2, b3, b4⟩
        · exact ⟨⟨rfl, rfl, rfl⟩, rfl, rfl, rfl, rfl⟩

/-- C6: mp_scaletempo2_get_default_opts returns exactly min_playback_rate =
0.25, max_playback_rate = 4.0, ola_window_size_ms = 20.0 and
wsola_search_interval_ms = 30.0. -/
theorem default_opts_values :
    mp_scaletempo2_get_default_opts.min_playback_rate = 0.25 ∧
    mp_scaletempo2_get_default_opts.max_playback_rate = 4 ∧
    mp_scaletempo2_get_default_opts.ola_window_size_ms = 20 ∧
    mp_scaletempo2_get_default_opts.wsola_search_interval_ms = 30 := by
  refine ⟨?_, rfl, rfl, rfl⟩
  norm_num [mp_scaletempo2_get_default_opts]

/-- C10: mp_scaletempo2_destroy called on a NULL engine is a safe no-op:
the wrapper returns before any deallocation, so the observable
deallocation count is zero. -/
theorem destroy_null_noop : mp_scaletempo2_destroy none = 0 := rfl

/-- C7: mp_scaletempo2_set_final is idempotent: calling it twice yields the
same engine state as calling it once, hence every subsequent operation
(push and pull included) behaves identically in both cases. -/
theorem set_final_idempotent (p : mp_scaletempo2) :
    mp_scaletempo2_set_final (mp_scaletempo2_set_final p) = mp_scaletempo2_set_final p ∧
    (∀ (planes : List (List ℚ)) (frame_size : ℤ) (rate : ℚ),
      mp_scaletempo2_fill_input_buffer
          (mp_scaletempo2_set_final (mp_scaletempo2_set_final p)) planes frame_size rate
        = mp_scaletempo2_fill_input_buffer (mp_scaletempo2_set_final p) planes frame_size rate) ∧
    (∀ (dest_size : ℤ) (rate : ℚ),
      mp_scaletempo2_fill_buffer
          (mp_scaletempo2_set_final (mp_scaletempo2_set_final p)) dest_size rate
        = mp_scaletempo2_fill_buffer (mp_scaletempo2_set_final p) dest_size rate) :=
  ⟨rfl, fun _ _ _ => rfl, fun _ _ => rfl⟩

/-- C4: mp_scaletempo2_fill_input_buffer consumes between 0 and frame_size
frames, and consumes exactly frame_size whenever set_final has not been
signaled. -/
theorem fill_input_buffer_consumed_bounds (p : mp_scaletempo2) (planes : List (List ℚ))
    (frame_size : ℤ) (rate : ℚ) (h : 0 ≤ frame_size) :
    0 ≤ (mp_scaletempo2_fill_input_buffer p planes frame_size rate).2 ∧
    (mp_scaletempo2_fill_input_buffer p planes frame_size rate).2 ≤ frame_size ∧
    (p.final_requested = false →
      (mp_scaletempo2_fill_input_buffer p planes frame_size rate).2 = frame_size) := by
  unfold mp_scaletempo2_fill_input_buffer
  split
  · rename_i hf
    exact ⟨le_refl 0, h, fun hff => by simp [hff] at hf⟩
  · exact ⟨h, le_refl frame_size, fun _ => rfl⟩

/-- Concrete instantiation of fill_input_buffer_consumed_bounds: on a fresh
engine (final flag unset) a push of 3 frames consumes exactly 3. -/
theorem fill_input_buffer_consumed_bounds_witness :
    (0 : ℤ) ≤ 3 ∧
    (mp_scaletempo2_fill_input_buffer zeroed_scaletempo2 [] 3 1).2 = 3 :=
  ⟨by norm_num,
   (fill_input_buffer_consumed_bounds zeroed_scaletempo2 [] 3 1 (by norm_num)).2.2 rfl⟩

/-- C1: mp_scaletempo2_create returns NULL exactly on invalid parameters
(channels outside [1, 8] or non-positive sample rate) or allocation
failure, leaving no partial engine state behind (a none result carries no
state); with valid parameters and successful allocation it returns a
non-null engine. -/
theorem creation_validation (alloc : alloc_outcome) (opts : Option mp_scaletempo2_opts)
    (channels sample_rate : ℤ) :
    ((channels < 1 ∨ 8 < channels ∨ sample_rate ≤ 0 ∨ alloc.calloc_ok = false ∨
        alloc.opts_malloc_ok = false) →
      mp_scaletempo2_create alloc opts channels sample_rate = none) ∧
    (1 ≤ channels → channels ≤ 8 → 0 < sample_rate → alloc.calloc_ok = true →
      alloc.opts_malloc_ok = true →
      (mp_scaletempo2_create alloc opts channels sample_rate).isSome = true) := by
  constructor
  · intro h
    simp only [mp_scaletempo2_create, MP_NUM_CHANNELS]
    split
    · rfl
    · split
      · rfl
      · split
        · rfl
        · rename_i h1 h2 h3
          exfalso
          rcases h with h | h | h | h | h
          · exact h1 (Or.inl (by omega))
          · exact h1 (Or.inr (Or.inl h))
          · exact h1 (Or.inr (Or.inr h))
          · exact h2 h
          · exact h3 h
  · intro h1 h2 h3 h4 h5
    simp only [mp_scaletempo2_create, MP_NUM_CHANNELS]
    have hc1 : ¬(channels ≤ 0 ∨ (8 : ℤ) < channels ∨ sample_rate ≤ 0) := by
      rintro (h | h | h) <;> omega
    rw [if_neg hc1]
    have hc2 : ¬(alloc.calloc_ok = false) := by simp [h4]
    rw [if_neg hc2]
    have hc3 : ¬(alloc.opts_malloc_ok = false) := by simp [h5]
    rw [if_neg hc3]
    rfl

/-- Concrete instantiation of creation_validation: channel count 0 yields
NULL, and channel count 2 with sample rate 100 and successful allocation
yields a non-null engine. -/
theorem creation_validation_witness :
    mp_scaletempo2_create ⟨true, true⟩ none 0 100 = none ∧
    (mp_scaletempo2_create ⟨true, true⟩ none 2 100).isSome = true :=
  ⟨(creation_validation ⟨true, true⟩ none 0 100).1 (Or.inl (by norm_num)),
   (creation_validation ⟨true, true⟩ none 2 100).2 (by norm_num) (by norm_num)
     (by norm_num) rfl rfl⟩

/-- C9: with valid parameters and successful allocation,
mp_scaletempo2_create called with a NULL opts pointer succeeds and the
engine it returns stores exactly the options of
mp_scaletempo2_get_default_opts. -/
theorem create_null_opts_defaults (channels sample_rate : ℤ)
    (h1 : 1 ≤ channels) (h2 : channels ≤ 8) (h3 : 0 < sample_rate) :
    mp_scaletempo2_create ⟨true, true⟩ none channels sample_rate
      = some (mp_scaletempo2_init
          { zeroed_scaletempo2 with opts := mp_scaletempo2_get_default_opts }
          channels sample_rate) ∧
    (mp_scaletempo2_init { zeroed_scaletempo2 with opts := mp_scaletempo2_get_default_opts }
        channels sample_rate).opts = mp_scaletempo2_get_default_opts := by
  refine ⟨?_, rfl⟩
  simp only [mp_scaletempo2_create, MP_NUM_CHANNELS]
  have hc1 : ¬(channels ≤ 0 ∨ (8 : ℤ) < channels ∨ sample_rate ≤ 0) := by
    rintro (h | h | h) <;> omega
  rw [if_neg hc1]
  rfl

/-- Concrete instantiation of create_null_opts_defaults: creating with NULL
opts, 2 channels and sample rate 100 stores the default options. -/
theorem create_null_opts_defaults_witness :
    (1 : ℤ) ≤ 2 ∧ (2 : ℤ) ≤ 8 ∧ (0 : ℤ) < 100 ∧
    (mp_scaletempo2_init { zeroed_scaletempo2 with opts := mp_scaletempo2_get_default_opts }
        2 100).opts = mp_scaletempo2_get_default_opts :=
  ⟨by norm_num, by norm_num, by norm_num,
   (create_null_opts_defaults 2 100 (by norm_num) (by norm_num) (by norm_num)).2⟩

/-- C5: after initialization the derived sizes satisfy: ola_window_size is
even and at least 2, ola_hop_size is exactly half of it,
num_candidate_blocks is odd and at least 1, and search_block_size equals
num_candidate_blocks + ola_window_size - 1; and no engine operation ever
changes any of these four fields. -/
theorem derived_size_invariants :
    (∀ (q : mp_scaletempo2) (channels rate : ℤ),
      2 ≤ (mp_scaletempo2_init q channels rate).ola_window_size ∧
      (mp_scaletempo2_init q channels rate).ola_window_size % 2 = 0 ∧
      (mp_scaletempo2_init q channels rate).ola_hop_size
        = (mp_scaletempo2_init q channels rate).ola_window_size / 2 ∧
      1 ≤ (mp_scaletempo2_init q channels rate).num_candidate_blocks ∧
      (mp_scaletempo2_init q channels rate).num_candidate_blocks % 2 = 1 ∧
      (mp_scaletempo2_init q channels rate).search_block_size
        = (mp_scaletempo2_init q channels rate).num_candidate_blocks
          + (mp_scaletempo2_init q channels rate).ola_window_size - 1) ∧
    (∀ (p : mp_scaletempo2) (planes : List (List ℚ)) (frame_size : ℤ) (rate : ℚ),
      same_derived_sizes (mp_scaletempo2_fill_input_buffer p planes frame_size rate).1 p) ∧
    (∀ (p : mp_scaletempo2) (dest_size : ℤ) (rate : ℚ),
      same_derived_sizes (mp_scaletempo2_fill_buffer p dest_size rate).1 p) ∧
    (∀ p : mp_scaletempo2, same_derived_sizes (mp_scaletempo2_set_final p) p) ∧
    (∀ p : mp_scaletempo2, same_derived_sizes (mp_scaletempo2_reset p) p) ∧
    (∀ (p : mp_scaletempo2) (rate : ℚ),
      same_derived_sizes (run_one_wsola_iteration p rate) p) := by
  refine ⟨?_, ?_, ?_, fun p => ⟨rfl, rfl, rfl, rfl⟩, fun p => ⟨rfl, rfl, rfl, rfl⟩,
    fun p rate => (run_one_wsola_iteration_static p rate).2⟩
  · exact fun q channels rate =>
      ⟨(round_even_at_least_two_spec _).1, (round_even_at_least_two_spec _).2, rfl,
       (round_odd_at_least_one_spec _).1, (round_odd_at_least_one_spec _).2, rfl⟩
  · intro p planes frame_size rate
    unfold mp_scaletempo2_fill_input_buffer
    split
    · exact ⟨rfl, rfl, rfl, rfl⟩
    · exact ⟨rfl, rfl, rfl, rfl⟩
  · intro p dest_size rate
    unfold mp_scaletempo2_fill_buffer
    split
    · exact ⟨rfl, rfl, rfl, rfl⟩
    · split
      · exact ⟨rfl, rfl, rfl, rfl⟩
      · exact (wsola_pull_static _ p _ rate).2

/-- C8: the channel count, the sample rate and the four configuration
scalars are immutable after construction: the constructor stores the
caller-supplied options by value in the engine, and none of the operations
modifies any of these fields. -/
theorem config_immutability :
    (∀ (q : mp_scaletempo2) (o : mp_scaletempo2_opts) (channels rate : ℤ),
      (mp_scaletempo2_init { q with opts := o } channels rate).opts = o) ∧
    (∀ (alloc : alloc_outcome) (o : mp_scaletempo2_opts) (channels sample_rate : ℤ),
      mp_scaletempo2_create alloc (some o) channels sample_rate = none ∨
      mp_scaletempo2_create alloc (some o) channels sample_rate
        = some (mp_scaletempo2_init { zeroed_scaletempo2 with opts := o }
            channels sample_rate)) ∧
    (∀ (p : mp_scaletempo2) (planes : List (List ℚ)) (frame_size : ℤ) (rate : ℚ),
      same_identity_fields (mp_scaletempo2_fill_input_buffer p planes frame_size rate).1 p) ∧
    (∀ (p : mp_scaletempo2) (dest_size : ℤ) (rate : ℚ),
      same_identity_fields (mp_scaletempo2_fill_buffer p dest_size rate).1 p) ∧
    (∀ p : mp_scaletempo2, same_identity_fields (mp_scaletempo2_set_final p) p) ∧
    (∀ p : mp_scaletempo2, same_identity_fields (mp_scaletempo2_reset p) p) := by
  refine ⟨fun q o channels rate => rfl, ?_, ?_, ?_,
    fun p => ⟨rfl, rfl, rfl⟩, fun p => ⟨rfl, rfl, rfl⟩⟩
  · intro alloc o channels sample_rate
    unfold mp_scaletempo2_create
    split
    · exact Or.inl rfl
    · split
      · exact Or.inl rfl
      · split
        · exact Or.inl rfl
        · exact Or.inr rfl
  · intro p planes frame_size rate
    unfold mp_scaletempo2_fill_input_buffer
    split
    · exact ⟨rfl, rfl, rfl⟩
    · exact ⟨rfl, rfl, rfl⟩
  · intro p dest_size rate
    unfold mp_scaletempo2_fill_buffer
    split
    · exact ⟨rfl, rfl, rfl⟩
    · split
      · exact ⟨rfl, rfl, rfl⟩
      · exact (wsola_pull_static _ p _ rate).1

/-- C3: when pull is called with a rate outside
[min_playback_rate, max_playback_rate], every emitted sample is exactly
zero, and the engine still consumes input at that rate:
muted_partial_frame advances by the emitted frame count times the rate and
the integer part of the advance is evicted from the input buffer. -/
theorem muted_pull_zero_output (p : mp_scaletempo2) (dest_size : ℤ) (rate : ℚ)
    (h : rate < p.opts.min_playback_rate ∨ p.opts.max_playback_rate < rate) :
    (∀ chan ∈ (mp_scaletempo2_fill_buffer p dest_size rate).2.1, ∀ s ∈ chan, s = 0) ∧
    ((mp_scaletempo2_fill_buffer p dest_size rate).1.muted_partial_frame
        + (⌊p.muted_partial_frame
            + ((mp_scaletempo2_fill_buffer p dest_size rate).2.2 : ℚ) * rate⌋ : ℚ)
      = p.muted_partial_frame
        + ((mp_scaletempo2_fill_buffer p dest_size rate).2.2 : ℚ) * rate) ∧
    ((mp_scaletempo2_fill_buffer p dest_size rate).1.input_buffer_frames
      = p.input_buffer_frames
        - ⌊p.muted_partial_frame
            + ((mp_scaletempo2_fill_buffer p dest_size rate).2.2 : ℚ) * rate⌋) := by
  unfold mp_scaletempo2_fill_buffer
  rw [if_pos h]
  refine ⟨?_, ?_, ?_⟩
  · intro chan hchan s hs
    rw [List.eq_of_mem_replicate hchan] at hs
    exact List.eq_of_mem_replicate hs
  · dsimp only
    simp only [muted_advanced]
    ring
  · dsimp only
    simp only [muted_advanced]

/-- Concrete instantiation of muted_pull_zero_output: on a 2-channel engine
holding 5 input frames, a pull of up to 3 frames at rate 5 (above the
maximum) emits only zeros and consumes input at rate 5. -/
theorem muted_pull_zero_output_witness :
    ({ zeroed_scaletempo2 with channels := 2, input_buffer_frames := 5 }
        : mp_scaletempo2).opts.max_playback_rate < 5 ∧
    (∀ chan ∈ (mp_scaletempo2_fill_buffer
        { zeroed_scaletempo2 with channels := 2, input_buffer_frames := 5 } 3 5).2.1,
      ∀ s ∈ chan, s = 0) ∧
    ((mp_scaletempo2_fill_buffer
          { zeroed_scaletempo2 with channels := 2, input_buffer_frames := 5 } 3 5).1.muted_partial_frame
        + (⌊({ zeroed_scaletempo2 with channels := 2, input_buffer_frames := 5 }
              : mp_scaletempo2).muted_partial_frame
            + ((mp_scaletempo2_fill_buffer
                { zeroed_scaletempo2 with channels := 2, input_buffer_frames := 5 } 3 5).2.2 : ℚ) * 5⌋ : ℚ)
      = ({ zeroed_scaletempo2 with channels := 2, input_buffer_frames := 5 }
            : mp_scaletempo2).muted_partial_frame
        + ((mp_scaletempo2_fill_buffer
            { zeroed_scaletempo2 with channels := 2, input_buffer_frames := 5 } 3 5).2.2 : ℚ) * 5) ∧
    ((mp_scaletempo2_fill_buffer
          { zeroed_scaletempo2 with channels := 2, input_buffer_frames := 5 } 3 5).1.input_buffer_frames
      = ({ zeroed_scaletempo2 with channels := 2, input_buffer_frames := 5 }
            : mp_scaletempo2).input_buffer_frames
        - ⌊({ zeroed_scaletempo2 with channels := 2, input_buffer_frames := 5 }
              : mp_scaletempo2).muted_partial_frame
            + ((mp_scaletempo2_fill_buffer
                { zeroed_scaletempo2 with channels := 2, input_buffer_frames := 5 } 3 5).2.2 : ℚ) * 5⌋) := by
  have h : ({ zeroed_scaletempo2 with channels := 2, input_buffer_frames := 5 }
      : mp_scaletempo2).opts.max_playback_rate < 5 := by norm_num [zeroed_scaletempo2]
  obtain ⟨h1, h2, h3⟩ := muted_pull_zero_output
    { zeroed_scaletempo2 with channels := 2, input_buffer_frames := 5 } 3 5 (Or.inr h)
  exact ⟨h, h1, h2, h3⟩

lemma run_one_wsola_iteration_measure (p : mp_scaletempo2) (rate : ℚ) :
    (run_one_wsola_iteration p rate).ola_hop_size = p.ola_hop_size ∧
    (run_one_wsola_iteration p rate).num_complete_frames
      = p.num_complete_frames + p.ola_hop_size ∧
    (real_input_frames (run_one_wsola_iteration p rate) : ℚ)
        - (run_one_wsola_iteration p rate).output_time
      = ((real_input_frames p : ℚ) - p.output_time) - (p.ola_hop_size : ℚ) * rate := by
  refine ⟨rfl, rfl, ?_⟩
  simp only [run_one_wsola_iteration, evict_input, wsola_iteration_core, real_input_frames]
  push_cast
  ring

lemma drain_engine_count : ∀ (fuel : ℕ) (p : mp_scaletempo2) (rate : ℚ),
    0 < (p.ola_hop_size : ℚ) * rate →
    (real_input_frames p : ℚ) - p.output_time
        ≤ (fuel : ℚ) * ((p.ola_hop_size : ℚ) * rate) →
    (((real_input_frames p : ℚ) - p.output_time ≤ 0 → (drain_engine fuel p rate).2 = 0) ∧
     (0 < (real_input_frames p : ℚ) - p.output_time →
       ((real_input_frames p : ℚ) - p.output_time
           ≤ ((drain_engine fuel p rate).2 : ℚ) * ((p.ola_hop_size : ℚ) * rate) ∧
         ((drain_engine fuel p rate).2 : ℚ) * ((p.ola_hop_size : ℚ) * rate)
           < ((real_input_frames p : ℚ) - p.output_time) + (p.ola_hop_size : ℚ) * rate)) ∧
     (drain_engine fuel p rate).1.num_complete_frames
       = p.num_complete_frames + ((drain_engine fuel p rate).2 : ℤ) * p.ola_hop_size) := by
  intro fuel
  induction fuel with
  | zero =>
    intro p rate hs hf
    rw [Nat.cast_zero, zero_mul] at hf
    refine ⟨fun _ => rfl, fun hd => absurd hf (by linarith), by simp [drain_engine]⟩
  | succ n ih =>
    intro p rate hs hf
    by_cases hd : p.output_time < (real_input_frames p : ℚ)
    · obtain ⟨hhop, hnc, hdm⟩ := run_one_wsola_iteration_measure p rate
      have hs' : 0 < ((run_one_wsola_iteration p rate).ola_hop_size : ℚ) * rate := by
        rw [hhop]; exact hs
      have hf' : (real_input_frames (run_one_wsola_iteration p rate) : ℚ)
          - (run_one_wsola_iteration p rate).output_time
          ≤ (n : ℚ) * (((run_one_wsola_iteration p rate).ola_hop_size : ℚ) * rate) := by
        rw [hhop, hdm]
        push_cast at hf
        linarith
      have key := ih (run_one_wsola_iteration p rate) rate hs' hf'
      rw [hhop, hdm, hnc] at key
      have hstep : drain_engine (n + 1) p rate
          = ((drain_engine n (run_one_wsola_iteration p rate) rate).1,
             (drain_engine n (run_one_wsola_iteration p rate) rate).2 + 1) := by
        simp only [drain_engine, if_pos hd]
      rw [hstep]
      refine ⟨fun hd0 => absurd hd0 (by linarith), fun hdpos => ?_, ?_⟩
      · by_cases hd' : ((real_input_frames p : ℚ) - p.output_time)
            - (p.ola_hop_size : ℚ) * rate ≤ 0
        · have hm0 : (drain_engine n (run_one_wsola_iteration p rate) rate).2 = 0 :=
            key.1 hd'
          rw [hm0]
          push_cast
          constructor
          · linarith
          · linarith
        · obtain ⟨k1, k2⟩ := key.2.1 (by linarith)
          push_cast
          constructor
          · nlinarith [k1]
          · nlinarith [k2]
      · dsimp only
        rw [key.2.2]
        push_cast
        ring
    · have hstep : drain_engine (n + 1) p rate = (p, 0) := by
        simp only [drain_engine, if_neg hd]
      rw [hstep]
      refine ⟨fun _ => rfl, fun hdpos => absurd hd (by simp; linarith), by simp⟩

/-- C2 (amended): each WSOLA iteration contributes exactly ola_hop_size
complete output frames and advances output_time by ola_hop_size times the
rate; and for a stream of F_in frames pushed into a freshly constructed
engine and processed at a constant rate within the configured range, the
post-set_final drain, when cut off as soon as output_time reaches the end
of the real input (drain_engine), accumulates a number of completed output
frames within ola_window_size of F_in divided by the rate.  The original
claim measured the drain by running pull until frames_available is
exhausted; that drain can emit further trailing hops synthesized from the
silence padding, and its total can then miss the bound, as the pull-based
counterexample below shows. -/
theorem wsola_conservation_drain (o : mp_scaletempo2_opts) (channels sample_rate : ℤ)
    (F_in : ℕ) (rate : ℚ) (fuel : ℕ)
    (hmin : o.min_playback_rate ≤ rate) (hmax : rate ≤ o.max_playback_rate)
    (hrate : 0 < rate)
    (hfuel : (F_in : ℚ) ≤ (fuel : ℚ) *
      (((mp_scaletempo2_init { zeroed_scaletempo2 with opts := o } channels
          sample_rate).ola_hop_size : ℚ) * rate)) :
    (∀ (q : mp_scaletempo2) (r : ℚ),
      (wsola_iteration_core q r).num_complete_frames
          = q.num_complete_frames + q.ola_hop_size ∧
      (wsola_iteration_core q r).output_time
          = q.output_time + (q.ola_hop_size : ℚ) * r) ∧
    |((drain_engine fuel
          (mp_scaletempo2_set_final
            (mp_scaletempo2_fill_input_buffer
              (mp_scaletempo2_init { zeroed_scaletempo2 with opts := o } channels sample_rate)
              [] (F_in : ℤ) rate).1)
          rate).1.num_complete_frames : ℚ)
        - (F_in : ℚ) / rate|
      ≤ ((mp_scaletempo2_init { zeroed_scaletempo2 with opts := o } channels
          sample_rate).ola_window_size : ℚ) := by
  constructor
  · exact fun q r => ⟨rfl, rfl⟩
  · set p0 := mp_scaletempo2_init { zeroed_scaletempo2 with opts := o } channels sample_rate
      with hp0
    set p := mp_scaletempo2_set_final
      (mp_scaletempo2_fill_input_buffer p0 [] (F_in : ℤ) rate).1 with hp
    obtain ⟨hW2, hWeven⟩ :=
      round_even_at_least_two_spec (o.ola_window_size_ms * (sample_rate : ℚ) / 1000)
    have hW : p0.ola_window_size
        = round_even_at_least_two (o.ola_window_size_ms * (sample_rate : ℚ) / 1000) := rfl
    have hhopdef : p0.ola_hop_size = p0.ola_window_size / 2 := rfl
    have hhop1 : 1 ≤ p0.ola_hop_size := by rw [hhopdef, hW]; omega
    have hhopW : p0.ola_hop_size ≤ p0.ola_window_size := by rw [hhopdef, hW]; omega
    have hp_hop : p.ola_hop_size = p0.ola_hop_size := rfl
    have hp_nc : p.num_complete_frames = 0 := rfl
    have hp_ot : p.output_time = 0 := rfl
    have hreal : real_input_frames p = (F_in : ℤ) := by
      show (0 : ℤ) + (F_in : ℤ) - 0 = (F_in : ℤ)
      ring
    have hd0 : (real_input_frames p : ℚ) - p.output_time = (F_in : ℚ) := by
      rw [hreal, hp_ot]
      push_cast
      ring
    have hhop1q : (1 : ℚ) ≤ (p.ola_hop_size : ℚ) := by
      rw [hp_hop]; exact_mod_cast hhop1
    have hs : 0 < (p.ola_hop_size : ℚ) * rate := by nlinarith
    have hfuel' : (real_input_frames p : ℚ) - p.output_time
        ≤ (fuel : ℚ) * ((p.ola_hop_size : ℚ) * rate) := by
      rw [hd0, hp_hop]; exact hfuel
    obtain ⟨k0, kpos, knc⟩ := drain_engine_count fuel p rate hs hfuel'
    rw [hp_nc, hp_hop, zero_add] at knc
    rw [knc]
    rcases eq_or_lt_of_le (Nat.cast_nonneg F_in : (0 : ℚ) ≤ (F_in : ℚ)) with hF0 | hFpos
    · have hn0 : (drain_engine fuel p rate).2 = 0 := k0 (by rw [hd0, ← hF0])
      rw [hn0, ← hF0]
      have hWq : (0 : ℚ) ≤ (p0.ola_window_size : ℚ) := by
        have : (0 : ℤ) ≤ p0.ola_window_size := by rw [hW]; omega
        exact_mod_cast this
      simpa using hWq
    · obtain ⟨k1, k2⟩ := kpos (by rw [hd0]; exact hFpos)
      rw [hd0, hp_hop] at k1 k2
      have hb1 : (F_in : ℚ) / rate
          ≤ ((drain_engine fuel p rate).2 : ℚ) * (p0.ola_hop_size : ℚ) := by
        rw [div_le_iff₀ hrate]
        nlinarith [k1]
      have hb2 : ((drain_engine fuel p rate).2 : ℚ) * (p0.ola_hop_size : ℚ)
          < (F_in : ℚ) / rate + (p0.ola_hop_size : ℚ) := by
        have hx : (((drain_engine fuel p rate).2 : ℚ) * (p0.ola_hop_size : ℚ)
            - (p0.ola_hop_size : ℚ)) * rate < (F_in : ℚ) := by nlinarith [k2]
        have hy := (lt_div_iff₀ hrate).2 hx
        linarith
      have hhopWq : (p0.ola_hop_size : ℚ) ≤ (p0.ola_window_size : ℚ) := by
        exact_mod_cast hhopW
      push_cast
      rw [abs_of_nonneg (by linarith [hb1])]
      push_cast at hb2
      linarith

/-- Concrete instantiation of wsola_conservation_drain: default options,
2 channels, sample rate 100 (window 2, hop 1), 3 input frames drained at
rate 2 with fuel 10. -/
theorem wsola_conservation_drain_witness :
    mp_scaletempo2_get_default_opts.min_playback_rate ≤ 2 ∧
    (2 : ℚ) ≤ mp_scaletempo2_get_default_opts.max_playback_rate ∧
    (0 : ℚ) < 2 ∧
    ((3 : ℕ) : ℚ) ≤ ((10 : ℕ) : ℚ) *
      (((mp_scaletempo2_init
          { zeroed_scaletempo2 with opts := mp_scaletempo2_get_default_opts }
          2 100).ola_hop_size : ℚ) * 2) ∧
    |((drain_engine 10
          (mp_scaletempo2_set_final
            (mp_scaletempo2_fill_input_buffer
              (mp_scaletempo2_init
                { zeroed_scaletempo2 with opts := mp_scaletempo2_get_default_opts }
                2 100)
              [] ((3 : ℕ) : ℤ) 2).1)
          2).1.num_complete_frames : ℚ)
        - ((3 : ℕ) : ℚ) / 2|
      ≤ ((mp_scaletempo2_init
          { zeroed_scaletempo2 with opts := mp_scaletempo2_get_default_opts }
          2 100).ola_window_size : ℚ) := by
  have h1 : mp_scaletempo2_get_default_opts.min_playback_rate ≤ (2 : ℚ) := by
    norm_num [mp_scaletempo2_get_default_opts]
  have h2 : (2 : ℚ) ≤ mp_scaletempo2_get_default_opts.max_playback_rate := by
    norm_num [mp_scaletempo2_get_default_opts]
  have h3 : (0 : ℚ) < 2 := by norm_num
  have hhopval : (mp_scaletempo2_init
      { zeroed_scaletempo2 with opts := mp_scaletempo2_get_default_opts }
      2 100).ola_hop_size = 1 := by
    show round_even_at_least_two
        (mp_scaletempo2_get_default_opts.ola_window_size_ms * ((100 : ℤ) : ℚ) / 1000) / 2 = 1
    norm_num [mp_scaletempo2_get_default_opts, round_even_at_least_two, round_eq]
  have h4 : ((3 : ℕ) : ℚ) ≤ ((10 : ℕ) : ℚ) *
      (((mp_scaletempo2_init
          { zeroed_scaletempo2 with opts := mp_scaletempo2_get_default_opts }
          2 100).ola_hop_size : ℚ) * 2) := by
    rw [hhopval]
    norm_num
  exact ⟨h1, h2, h3, h4,
    (wsola_conservation_drain mp_scaletempo2_get_default_opts 2 100 3 2 10 h1 h2 h3 h4).2⟩

lemma wsola_pull_succ_iterate (fuel : ℕ) (p : mp_scaletempo2) (room : ℕ) (rate : ℚ)
    (hroom : ¬ room = 0) (hnc : ¬ 0 < p.num_complete_frames)
    (hci : wsola_can_iterate p rate = true) :
    wsola_pull (fuel + 1) p room rate
      = wsola_pull fuel (run_one_wsola_iteration p rate) room rate := by
  simp only [wsola_pull]
  rw [if_neg hroom, if_neg hnc, if_pos hci]

lemma wsola_pull_succ_drain (fuel : ℕ) (p : mp_scaletempo2) (room : ℕ) (rate : ℚ)
    (hroom : 1 ≤ room) (hnc : p.num_complete_frames = 1) :
    wsola_pull (fuel + 1) p room rate
      = ((wsola_pull fuel { p with num_complete_frames := 0 } (room - 1) rate).1,
         1 + (wsola_pull fuel { p with num_complete_frames := 0 } (room - 1) rate).2) := by
  have hr0 : ¬ room = 0 := by omega
  simp only [wsola_pull]
  rw [if_neg hr0, if_pos (by rw [hnc]; norm_num)]
  simp only [hnc, Int.toNat_one]
  rw [min_eq_right hroom]
  norm_num

lemma wsola_pull_succ_stop (fuel : ℕ) (p : mp_scaletempo2) (room : ℕ) (rate : ℚ)
    (hroom : ¬ room = 0) (hnc : ¬ 0 < p.num_complete_frames)
    (hci : wsola_can_iterate p rate = false) :
    wsola_pull (fuel + 1) p room rate = (p, 0) := by
  simp only [wsola_pull]
  rw [if_neg hroom, if_neg hnc, if_neg (by simp [hci])]

/-- C2 counterexample: on conservation_counterexample_engine (default
options, sample rate 100, window 2, hop 1, one real input frame, final),
draining via pull at rate 13/50 (inside [0.25, 4]) emits 6 frames in a
single call after which frames_available is false, yet |6 - (1)/(13/50)| =
28/13 exceeds ola_window_size = 2: the conservation bound fails for the
pull-based drain, because after the real input is exhausted the leftover
silence padding keeps frames_needed at 0 and pull performs further
iterations. -/
theorem wsola_conservation_pull_counterexample :
    mp_scaletempo2_get_default_opts.min_playback_rate ≤ 13 / 50 ∧
    (13 / 50 : ℚ) ≤ mp_scaletempo2_get_default_opts.max_playback_rate ∧
    (mp_scaletempo2_fill_buffer conservation_counterexample_engine 8 (13 / 50)).2.2 = 6 ∧
    mp_scaletempo2_frames_available
        (mp_scaletempo2_fill_buffer conservation_counterexample_engine 8 (13 / 50)).1 (13 / 50)
      = false ∧
    ¬ |((mp_scaletempo2_fill_buffer conservation_counterexample_engine 8 (13 / 50)).2.2 : ℚ)
          - ((1 : ℕ) : ℚ) / (13 / 50)|
        ≤ (conservation_counterexample_engine.ola_window_size : ℚ) := by
  have hbase : conservation_counterexample_engine = cexBase := by
    norm_num [conservation_counterexample_engine, cexBase, mp_scaletempo2_set_final,
      mp_scaletempo2_fill_input_buffer, mp_scaletempo2_init, zeroed_scaletempo2,
      mp_scaletempo2_get_default_opts, round_even_at_least_two, round_odd_at_least_one,
      round_eq]
  have hI1 : run_one_wsola_iteration cexBase (13/50)
      = { cexBase with output_time := 13/50, search_block_index := -2, target_block_index := -1, num_complete_frames := 1, wsola_output_started := true, input_buffer_frames := 2, input_buffer_added_silence := 1 } := by
    norm_num [run_one_wsola_iteration, wsola_iteration_core, evict_input, frames_needed, derived_target_block_index, derived_search_block_index, round_eq, cexBase, mp_scaletempo2.mk.injEq]
  have hI3 : run_one_wsola_iteration { { cexBase with output_time := 13/50, search_block_index := -2, target_block_index := -1, num_complete_frames := 1, wsola_output_started := true, input_buffer_frames := 2, input_buffer_added_silence := 1 } with num_complete_frames := 0 } (13/50)
      = { cexBase with output_time := 13/25, search_block_index := -2, target_block_index := -1, num_complete_frames := 1, wsola_output_started := true, input_buffer_frames := 2, input_buffer_added_silence := 1 } := by
    norm_num [run_one_wsola_iteration, wsola_iteration_core, evict_input, frames_needed, derived_target_block_index, derived_search_block_index, round_eq, cexBase, mp_scaletempo2.mk.injEq]
  have hI5 : run_one_wsola_iteration { { cexBase with output_time := 13/25, search_block_index := -2, target_block_index := -1, num_complete_frames := 1, wsola_output_started := true, input_buffer_frames := 2, input_buffer_added_silence := 1 } with num_complete_frames := 0 } (13/50)
      = { cexBase with output_time := 39/50, search_block_index := -1, target_block_index := 0, num_complete_frames := 1, wsola_output_started := true, input_buffer_frames := 3, input_buffer_added_silence := 2 } := by
    norm_num [run_one_wsola_iteration, wsola_iteration_core, evict_input, frames_needed, derived_target_block_index, derived_search_block_index, round_eq, cexBase, mp_scaletempo2.mk.injEq]
  have hI7 : run_one_wsola_iteration { { cexBase with output_time := 39/50, search_block_index := -1, target_block_index := 0, num_complete_frames := 1, wsola_output_started := true, input_buffer_frames := 3, input_buffer_added_silence := 2 } with num_complete_frames := 0 } (13/50)
      = { cexBase with output_time := 26/25, search_block_index := -1, target_block_index := 0, num_complete_frames := 1, wsola_output_started := true, input_buffer_frames := 3, input_buffer_added_silence := 2 } := by
    norm_num [run_one_wsola_iteration, wsola_iteration_core, evict_input, frames_needed, derived_target_block_index, derived_search_block_index, round_eq, cexBase, mp_scaletempo2.mk.injEq]
  have hI9 : run_one_wsola_iteration { { cexBase with output_time := 26/25, search_block_index := -1, target_block_index := 0, num_complete_frames := 1, wsola_output_started := true, input_buffer_frames := 3, input_buffer_added_silence := 2 } with num_complete_frames := 0 } (13/50)
      = { cexBase with output_time := 13/10, search_block_index := -1, target_block_index := 0, num_complete_frames := 1, wsola_output_started := true, input_buffer_frames := 3, input_buffer_added_silence := 2 } := by
    norm_num [run_one_wsola_iteration, wsola_iteration_core, evict_input, frames_needed, derived_target_block_index, derived_search_block_index, round_eq, cexBase, mp_scaletempo2.mk.injEq]
  have hI11 : run_one_wsola_iteration { { cexBase with output_time := 13/10, search_block_index := -1, target_block_index := 0, num_complete_frames := 1, wsola_output_started := true, input_buffer_frames := 3, input_buffer_added_silence := 2 } with num_complete_frames := 0 } (13/50)
      = { cexBase with output_time := 39/25, search_block_index := -1, target_block_index := 0, num_complete_frames := 1, wsola_output_started := true, input_buffer_frames := 3, input_buffer_added_silence := 2 } := by
    norm_num [run_one_wsola_iteration, wsola_iteration_core, evict_input, frames_needed, derived_target_block_index, derived_search_block_index, round_eq, cexBase, mp_scaletempo2.mk.injEq]
  have u6 : wsola_pull 6 { { cexBase with output_time := 39/25, search_block_index := -1, target_block_index := 0, num_complete_frames := 1, wsola_output_started := true, input_buffer_frames := 3, input_buffer_added_silence := 2 } with num_complete_frames := 0 } 2 (13/50) = ({ { cexBase with output_time := 39/25, search_block_index := -1, target_block_index := 0, num_complete_frames := 1, wsola_output_started := true, input_buffer_frames := 3, input_buffer_added_silence := 2 } with num_complete_frames := 0 }, 0) := by
    rw [show (6 : ℕ) = 5 + 1 from rfl,
      wsola_pull_succ_stop 5 _ 2 (13/50) (by norm_num) (by norm_num) (by norm_num [wsola_can_iterate, frames_needed, derived_target_block_index, derived_search_block_index, real_input_frames, round_eq, cexBase])]
  have u7 : wsola_pull 7 { cexBase with output_time := 39/25, search_block_index := -1, target_block_index := 0, num_complete_frames := 1, wsola_output_started := true, input_buffer_frames := 3, input_buffer_added_silence := 2 } 3 (13/50) = ({ { cexBase with output_time := 39/25, search_block_index := -1, target_block_index := 0, num_complete_frames := 1, wsola_output_started := true, input_buffer_frames := 3, input_buffer_added_silence := 2 } with num_complete_frames := 0 }, 1) := by
    rw [show (7 : ℕ) = 6 + 1 from rfl,
      wsola_pull_succ_drain 6 _ 3 (13/50) (by norm_num) rfl, u6]
    rfl
  have u8 : wsola_pull 8 { { cexBase with output_time := 13/10, search_block_index := -1, target_block_index := 0, num_complete_frames := 1, wsola_output_started := true, input_buffer_frames := 3, input_buffer_added_silence := 2 } with num_complete_frames := 0 } 3 (13/50) = ({ { cexBase with output_time := 39/25, search_block_index := -1, target_block_index := 0, num_complete_frames := 1, wsola_output_started := true, input_buffer_frames := 3, input_buffer_added_silence := 2 } with num_complete_frames := 0 }, 1) := by
    rw [show (8 : ℕ) = 7 + 1 from rfl,
      wsola_pull_succ_iterate 7 _ 3 (13/50) (by norm_num) (by norm_num)
        (by norm_num [wsola_can_iterate, frames_needed, derived_target_block_index, derived_search_block_index, real_input_frames, round_eq, cexBase]), hI11, u7]
  have u9 : wsola_pull 9 { cexBase with output_time := 13/10, search_block_index := -1, target_block_index := 0, num_complete_frames := 1, wsola_output_started := true, input_buffer_frames := 3, input_buffer_added_silence := 2 } 4 (13/50) = ({ { cexBase with output_time := 39/25, search_block_index := -1, target_block_index := 0, num_complete_frames := 1, wsola_output_started := true, input_buffer_frames := 3, input_buffer_added_silence := 2 } with num_complete_frames := 0 }, 2) := by
    rw [show (9 : ℕ) = 8 + 1 from rfl,
      wsola_pull_succ_drain 8 _ 4 (13/50) (by norm_num) rfl, u8]
    rfl
  have u10 : wsola_pull 10 { { cexBase with output_time := 26/25, search_block_index := -1, target_block_index := 0, num_complete_frames := 1, wsola_output_started := true, input_buffer_frames := 3, input_buffer_added_silence := 2 } with num_complete_frames := 0 } 4 (13/50) = ({ { cexBase with output_time := 39/25, search_block_index := -1, target_block_index := 0, num_complete_frames := 1, wsola_output_started := true, input_buffer_frames := 3, input_buffer_added_silence := 2 } with num_complete_frames := 0 }, 2) := by
    rw [show (10 : ℕ) = 9 + 1 from rfl,
      wsola_pull_succ_iterate 9 _ 4 (13/50) (by norm_num) (by norm_num)
        (by norm_num [wsola_can_iterate, frames_needed, derived_target_block_index, derived_search_block_index, real_input_frames, round_eq, cexBase]), hI9, u9]
  have u11 : wsola_pull 11 { cexBase with output_time := 26/25, search_block_index := -1, target_block_index := 0, num_complete_frames := 1, wsola_output_started := true, input_buffer_frames := 3, input_buffer_added_silence := 2 } 5 (13/50) = ({ { cexBase with output_time := 39/25, search_block_index := -1, target_block_index := 0, num_complete_frames := 1, wsola_output_started := true, input_buffer_frames := 3, input_buffer_added_silence := 2 } with num_complete_frames := 0 }, 3) := by
    rw [show (11 : ℕ) = 10 + 1 from rfl,
      wsola_pull_succ_drain 10 _ 5 (13/50) (by norm_num) rfl, u10]
    rfl
  have u12 : wsola_pull 12 { { cexBase with output_time := 39/50, search_block_index := -1, target_block_index := 0, num_complete_frames := 1, wsola_output_started := true, input_buffer_frames := 3, input_buffer_added_silence := 2 } with num_complete_frames := 0 } 5 (13/50) = ({ { cexBase with output_time := 39/25, search_block_index := -1, target_block_index := 0, num_complete_frames := 1, wsola_output_started := true, input_buffer_frames := 3, input_buffer_added_silence := 2 } with num_complete_frames := 0 }, 3) := by
    rw [show (12 : ℕ) = 11 + 1 from rfl,
      wsola_pull_succ_iterate 11 _ 5 (13/50) (by norm_num) (by norm_num)
        (by norm_num [wsola_can_iterate, frames_needed, derived_target_block_index, derived_search_block_index, real_input_frames, round_eq, cexBase]), hI7, u11]
  have u13 : wsola_pull 13 { cexBase with output_time := 39/50, search_block_index := -1, target_block_index := 0, num_complete_frames := 1, wsola_output_started := true, input_buffer_frames := 3, input_buffer_added_silence := 2 } 6 (13/50) = ({ { cexBase with output_time := 39/25, search_block_index := -1, target_block_index := 0, num_complete_frames := 1, wsola_output_started := true, input_buffer_frames := 3, input_buffer_added_silence := 2 } with num_complete_frames := 0 }, 4) := by
    rw [show (13 : ℕ) = 12 + 1 from rfl,
      wsola_pull_succ_drain 12 _ 6 (13/50) (by norm_num) rfl, u12]
    rfl
  have u14 : wsola_pull 14 { { cexBase with output_time := 13/25, search_block_index := -2, target_block_index := -1, num_complete_frames := 1, wsola_output_started := true, input_buffer_frames := 2, input_buffer_added_silence := 1 } with num_complete_frames := 0 } 6 (13/50) = ({ { cexBase with output_time := 39/25, search_block_index := -1, target_block_index := 0, num_complete_frames := 1, wsola_output_started := true, input_buffer_frames := 3, input_buffer_added_silence := 2 } with num_complete_frames := 0 }, 4) := by
    rw [show (14 : ℕ) = 13 + 1 from rfl,
      wsola_pull_succ_iterate 13 _ 6 (13/50) (by norm_num) (by norm_num)
        (by norm_num [wsola_can_iterate, frames_needed, derived_target_block_index, derived_search_block_index, real_input_frames, round_eq, cexBase]), hI5, u13]
  have u15 : wsola_pull 15 { cexBase with output_time := 13/25, search_block_index := -2, target_block_index := -1, num_complete_frames := 1, wsola_output_started := true, input_buffer_frames := 2, input_buffer_added_silence := 1 } 7 (13/50) = ({ { cexBase with output_time := 39/25, search_block_index := -1, target_block_index := 0, num_complete_frames := 1, wsola_output_started := true, input_buffer_frames := 3, input_buffer_added_silence := 2 } with num_complete_frames := 0 }, 5) := by
    rw [show (15 : ℕ) = 14 + 1 from rfl,
      wsola_pull_succ_drain 14 _ 7 (13/50) (by norm_num) rfl, u14]
    rfl
  have u16 : wsola_pull 16 { { cexBase with output_time := 13/50, search_block_index := -2, target_block_index := -1, num_complete_frames := 1, wsola_output_started := true, input_buffer_frames := 2, input_buffer_added_silence := 1 } with num_complete_frames := 0 } 7 (13/50) = ({ { cexBase with output_time := 39/25, search_block_index := -1, target_block_index := 0, num_complete_frames := 1, wsola_output_started := true, input_buffer_frames := 3, input_buffer_added_silence := 2 } with num_complete_frames := 0 }, 5) := by
    rw [show (16 : ℕ) = 15 + 1 from rfl,
      wsola_pull_succ_iterate 15 _ 7 (13/50) (by norm_num) (by norm_num)
        (by norm_num [wsola_can_iterate, frames_needed, derived_target_block_index, derived_search_block_index, real_input_frames, round_eq, cexBase]), hI3, u15]
  have u17 : wsola_pull 17 { cexBase with output_time := 13/50, search_block_index := -2, target_block_index := -1, num_complete_frames := 1, wsola_output_started := true, input_buffer_frames := 2, input_buffer_added_silence := 1 } 8 (13/50) = ({ { cexBase with output_time := 39/25, search_block_index := -1, target_block_index := 0, num_complete_frames := 1, wsola_output_started := true, input_buffer_frames := 3, input_buffer_added_silence := 2 } with num_complete_frames := 0 }, 6) := by
    rw [show (17 : ℕ) = 16 + 1 from rfl,
      wsola_pull_succ_drain 16 _ 8 (13/50) (by norm_num) rfl, u16]
    rfl
  have u18 : wsola_pull 18 cexBase 8 (13/50) = ({ { cexBase with output_time := 39/25, search_block_index := -1, target_block_index := 0, num_complete_frames := 1, wsola_output_started := true, input_buffer_frames := 3, input_buffer_added_silence := 2 } with num_complete_frames := 0 }, 6) := by
    rw [show (18 : ℕ) = 17 + 1 from rfl,
      wsola_pull_succ_iterate 17 _ 8 (13/50) (by norm_num) (by norm_num [cexBase])
        (by norm_num [wsola_can_iterate, frames_needed, derived_target_block_index, derived_search_block_index, real_input_frames, round_eq, cexBase]), hI1, u17]
  have hfb : mp_scaletempo2_fill_buffer cexBase 8 (13/50) = ({ { cexBase with output_time := 39/25, search_block_index := -1, target_block_index := 0, num_complete_frames := 1, wsola_output_started := true, input_buffer_frames := 3, input_buffer_added_silence := 2 } with num_complete_frames := 0 }, [], 6) := by
    unfold mp_scaletempo2_fill_buffer
    rw [if_neg (by norm_num [cexBase, mp_scaletempo2_get_default_opts]),
      if_neg (by norm_num [abs_le])]
    simp only [show ((8 : ℤ)).toNat = 8 from rfl, show (2 * 8 + 2 : ℕ) = 18 from rfl]
    rw [u18]
    rfl
  refine ⟨by norm_num [mp_scaletempo2_get_default_opts],
    by norm_num [mp_scaletempo2_get_default_opts], ?_, ?_, ?_⟩
  · rw [hbase, hfb]
  · rw [hbase, hfb]
    norm_num [mp_scaletempo2_frames_available, wsola_can_iterate, frames_needed, derived_target_block_index, derived_search_block_index, real_input_frames, round_eq, cexBase]
  · rw [hbase, hfb]
    norm_num [abs_le, cexBase]
